import Mathlib

/-!
# Verification of the pyTNG client library core

A shallow embedding of `pyTNG/_backend/api.py` and `pyTNG/units/cosmological.py`.

Python dictionaries are modelled as association lists (`assocFind`/`assocSet`
mirror `d[k]` lookup and `d[k] = v` assignment, which keeps the position of an
existing key and appends a fresh key at the end, as CPython dicts do).
Remote HTTP traffic is modelled by a `backend` function from a URL and query
parameters to an `HResponse`; every operation additionally returns the list of
HTTP requests it issued, in order, so that "number of network calls" is a
provable quantity.  Numeric values are modelled by `ℚ` (exact arithmetic).
Python exceptions are modelled by `Except` results: an operation that raises
returns `.error` together with the object state as it was at the time of the
raise (attribute assignments that already happened persist, exactly as for a
Python object that survives an exception).
-/

namespace PyTNG

/-- Lookup in an association list; models Python `d[k]` / `k in d` on a dict. -/
def assocFind {α β : Type} [DecidableEq α] : List (α × β) → α → Option β
  | [], _ => none
  | (a, b) :: l, k => if a = k then some b else assocFind l k

/-- Assignment `d[k] = v` on a dict: overwrite an existing key in place,
otherwise append the new binding at the end (CPython insertion order). -/
def assocSet {α β : Type} [DecidableEq α] : List (α × β) → α → β → List (α × β)
  | [], k, v => [(k, v)]
  | (a, b) :: l, k, v => if a = k then (k, v) :: l else (a, b) :: assocSet l k v

/-- JSON scalar values, as far as the embedded code inspects them. -/
inductive JVal : Type where
  | jnum : Int → JVal
  | jstr : String → JVal
  | jnull : JVal
deriving DecidableEq, Repr, Inhabited

/-- A parsed JSON object body (`r.json()`): a mapping from field names to values. -/
abbrev JObj : Type := List (String × JVal)

/-- The part of a `requests` response that `_api_fetch` inspects: the HTTP
status code, the response headers, the parsed JSON body (meaningful when the
`content-type` header says `application/json`) and the raw body bytes. -/
structure HResponse : Type where
  status_code : Nat
  headers : List (String × String)
  jsonBody : JObj
  content : List Nat
deriving DecidableEq, Repr, Inhabited

/-- One issued HTTP request: the URL and the query parameters passed along. -/
abbrev HttpCall : Type := String × List (String × String)

/-- A remote backend: what `requests.get(url, params=...)` would return. -/
abbrev Backend : Type := String → List (String × String) → HResponse

/-- Exceptions that can escape `_api_fetch`. -/
inductive FetchErr : Type where
  /-- Raised when `requests.get` is handed a `None` URL; `requests` raises `MissingSchema`
  before any network traffic happens. -/
  | missingUrl : FetchErr
  /-- Raised by `raise_for_status` on a 4xx/5xx response (`requests.exceptions.HTTPError`). -/
  | httpError (code : Nat) : FetchErr
  /-- Raised when `r.headers["content-type"]` is absent (`KeyError`). -/
  | headerKeyError : FetchErr
  /-- Raised when `split("filename=")[1]` has no second element (`IndexError`). -/
  | indexError : FetchErr
deriving DecidableEq, Repr

/-- The second component of the pair returned by `_api_fetch`. -/
inductive Payload : Type where
  /-- Result `r.json()` — a parsed JSON object. -/
  | json : JObj → Payload
  /-- a filename string, after the body was saved to disk. -/
  | file : String → Payload
  /-- the raw response object `r`. -/
  | raw : HResponse → Payload
deriving DecidableEq, Repr, Inhabited

/-- The local filesystem: the directories that exist and the files that exist
with their byte contents (paths are opaque strings, relative to the process
working directory). -/
structure FS : Type where
  dirs : List String
  files : List (String × List Nat)
deriving DecidableEq, Repr, Inhabited

/-- The empty filesystem. -/
def FS.empty : FS := ⟨[], []⟩

/-- Python `str.split(sep)` on character lists, fuel-driven so that it is
structurally recursive (the fuel is an upper bound on the input length). -/
def pySplitAux (sep : List Char) : Nat → List Char → List Char → List (List Char)
  | 0, l, cur => [cur.reverse ++ l]
  | fuel + 1, l, cur =>
    match l with
    | [] => [cur.reverse]
    | c :: rest =>
      if sep.isPrefixOf (c :: rest) then
        cur.reverse :: pySplitAux sep fuel ((c :: rest).drop sep.length) []
      else
        pySplitAux sep fuel rest (c :: cur)

/-- Python `s.split(sep)` for a non-empty separator. -/
def pySplit (s sep : String) : List String :=
  (pySplitAux sep.data (s.data.length + 1) s.data []).map fun l => ⟨l⟩

/-- The complete outcome of one `_api_fetch` invocation: its return value or
exception, the filesystem afterwards, and the HTTP requests it issued. -/
structure FetchOut : Type where
  result : Except FetchErr (Nat × Payload)
  fs : FS
  trace : List HttpCall

/-- Embedding of `_api_fetch(url, directory=None, **kwargs)`
(`pyTNG/_backend/api.py`, lines 37–62).

* `r = requests.get(url, params=kwargs, headers=_user_header)`; a `None` url
  makes `requests` raise before any traffic.
* `r.raise_for_status()` raises on a 4xx/5xx status.
* JSON content type: return `(0, r.json())`.
* a `content-disposition` header with a `directory` argument: create the
  directory if it does not exist (`mkdir(parents=True, exist_ok=True)`), then
  `open(filename, "wb")` — note: the path is the bare header filename,
  relative to the working directory — write `r.content`, return
  `(2, filename)`.
* a `content-disposition` header without `directory`: return `(2, r)`.
* anything else: return `(1, r)`. -/
def api_fetch (backend : Backend) (url : Option String) (directory : Option String)
    (kwargs : List (String × String)) (fs : FS) : FetchOut :=
  match url with
  | none => ⟨.error .missingUrl, fs, []⟩
  | some u =>
    let r := backend u kwargs
    if 400 ≤ r.status_code ∧ r.status_code < 600 then
      ⟨.error (.httpError r.status_code), fs, [(u, kwargs)]⟩
    else
      match assocFind r.headers "content-type" with
      | none => ⟨.error .headerKeyError, fs, [(u, kwargs)]⟩
      | some ct =>
        if ct = "application/json" then
          ⟨.ok (0, .json r.jsonBody), fs, [(u, kwargs)]⟩
        else
          match assocFind r.headers "content-disposition" with
          | some cd =>
            match (pySplit cd "filename=").get? 1 with
            | none => ⟨.error .indexError, fs, [(u, kwargs)]⟩
            | some filename =>
              match directory with
              | some d =>
                let fs1 : FS :=
                  if d ∈ fs.dirs then fs else ⟨fs.dirs ++ [d], fs.files⟩
                let fs2 : FS := ⟨fs1.dirs, assocSet fs1.files filename r.content⟩
                ⟨.ok (2, .file filename), fs2, [(u, kwargs)]⟩
              | none => ⟨.ok (2, .raw r), fs, [(u, kwargs)]⟩
          | none => ⟨.ok (1, .raw r), fs, [(u, kwargs)]⟩

/-! ## The abstract resource node (`TNGAPI`) -/

/-- Python-level exceptions that escape the node operations. -/
inductive PyErr : Type where
  /-- an exception raised inside `_api_fetch` / `requests`. -/
  | fetch : FetchErr → PyErr
  /-- Exception `AttributeError` from `__getattr__`. -/
  | attributeError : PyErr
  /-- Exception `KeyError` from a dict lookup. -/
  | keyError : PyErr
  /-- Exception `TypeError` (e.g. subscripting / membership test on a non-dict). -/
  | typeError : PyErr
deriving DecidableEq, Repr

/-- The mutable per-node state that the abstract base class `TNGAPI` manages:
`self._base_api_url`, `self._attr` and the `self._has_called` flag
(`fetchState`: `_has_called = true` is the spec's `Fetched`). -/
structure NodeState : Type where
  base_api_url : Option String
  attr : Option Payload
  has_called : Bool
deriving DecidableEq, Repr, Inhabited

/-- Embedding of `TNGAPI.__init__`: `self._base_api_url = None; self._attr = None;
self._has_called = False`. -/
def TNGAPI.initState : NodeState := ⟨none, none, false⟩

/-- The `api_url` property: returns `self._base_api_url`. -/
def TNGAPI.api_url (s : NodeState) : Option String := s.base_api_url

/-- Outcome of `TNGAPI.call`: result or exception, the node state afterwards
(assignments made before a raise persist), the filesystem, and the requests
issued. -/
structure CallOut : Type where
  result : Except FetchErr Payload
  state : NodeState
  fs : FS
  trace : List HttpCall

/-- Embedding of `TNGAPI.call(self, directory=None, **kwargs)` (lines 133–152):
`status, self._attr = _api_fetch(self.api_url, directory=directory, **kwargs)`
then `self._has_called = True`, returning `self._attr`.  When `_api_fetch`
raises, neither assignment has happened yet, so the node state is unchanged. -/
def TNGAPI.call (backend : Backend) (s : NodeState) (directory : Option String)
    (kwargs : List (String × String)) (fs : FS) : CallOut :=
  let o := api_fetch backend (TNGAPI.api_url s) directory kwargs fs
  match o.result with
  | .error e => ⟨.error e, s, o.fs, o.trace⟩
  | .ok (_status, p) => ⟨.ok p, ⟨s.base_api_url, some p, true⟩, o.fs, o.trace⟩

/-- Outcome of a read of the `attributes` property. -/
structure AttrOut : Type where
  result : Except FetchErr (Option Payload)
  state : NodeState
  trace : List HttpCall

/-- Embedding of the `attributes` property (lines 115–124): if
`self._has_called is False` then `self.call()` (no directory, no extra
parameters), then return `self._attr`. -/
def TNGAPI.attributes (backend : Backend) (s : NodeState) : AttrOut :=
  if s.has_called = false then
    let c := TNGAPI.call backend s none [] FS.empty
    match c.result with
    | .error e => ⟨.error e, c.state, c.trace⟩
    | .ok _ => ⟨.ok c.state.attr, c.state, c.trace⟩
  else
    ⟨.ok s.attr, s, []⟩

/-- The attribute names that `hasattr(super(), item)` finds inside
`TNGAPI.__getattr__`: the attributes of the superclass chain (`ABC`/`object`).
Only names missing from the node's own class reach `__getattr__` at all. -/
def object_dir : List String :=
  ["__abstractmethods__", "__class__", "__delattr__", "__dict__", "__dir__",
   "__doc__", "__eq__", "__format__", "__ge__", "__getattribute__", "__gt__",
   "__hash__", "__init__", "__init_subclass__", "__le__", "__lt__", "__ne__",
   "__new__", "__reduce__", "__reduce_ex__", "__repr__", "__setattr__",
   "__sizeof__", "__str__", "__subclasshook__"]

/-- Value produced by `__getattr__`. -/
inductive GetattrVal : Type where
  /-- Value of `super().__getattribute__(item)` — an attribute of the superclass chain,
  opaque to this model. -/
  | classAttr : GetattrVal
  /-- Value of `self.attributes[item]` — a field of the fetched attribute mapping. -/
  | attrVal : JVal → GetattrVal
deriving DecidableEq, Repr

/-- Outcome of `__getattr__`. -/
structure GetattrOut : Type where
  result : Except PyErr GetattrVal
  state : NodeState
  trace : List HttpCall

/-- Embedding of `TNGAPI.__getattr__(self, item)` (lines 99–106):
if `hasattr(super(), item)` return the superclass attribute; elif
`item in self.attributes` (this membership test reads the `attributes`
property, triggering the lazy fetch) return `self.attributes[item]` (a second
property read, now served from the cache); else raise `AttributeError`.
Membership / subscripting on a non-dict `attributes` value raises `TypeError`
just as in Python. -/
def TNGAPI.getattr (backend : Backend) (item : String) (s : NodeState) : GetattrOut :=
  if item ∈ object_dir then ⟨.ok .classAttr, s, []⟩
  else
    let a := TNGAPI.attributes backend s
    match a.result with
    | .error e => ⟨.error (.fetch e), a.state, a.trace⟩
    | .ok attrOpt =>
      match attrOpt with
      | some (.json j) =>
        if (assocFind j item).isSome then
          let a2 := TNGAPI.attributes backend a.state
          match a2.result with
          | .error e => ⟨.error (.fetch e), a2.state, a.trace ++ a2.trace⟩
          | .ok attrOpt2 =>
            match attrOpt2 with
            | some (.json j2) =>
              match assocFind j2 item with
              | some v => ⟨.ok (.attrVal v), a2.state, a.trace ++ a2.trace⟩
              | none => ⟨.error .keyError, a2.state, a.trace ++ a2.trace⟩
            | _ => ⟨.error .typeError, a2.state, a.trace ++ a2.trace⟩
        else
          ⟨.error .attributeError, a.state, a.trace⟩
      | _ => ⟨.error .typeError, a.state, a.trace⟩

/-! ## The level resolver (`TNGAPI.__new__`) -/

/-- The classes taking part in level resolution: the abstract base and its
three direct subclasses. -/
inductive APIClass : Type where
  | TNGAPI : APIClass
  | TNGSimulationAPI : APIClass
  | TNGSnapshotAPI : APIClass
  | TNGSubhaloAPI : APIClass
deriving DecidableEq, Repr

/-- The class attribute `_level`: `None` on the abstract base. -/
def APIClass.level : APIClass → Option Int
  | .TNGAPI => none
  | .TNGSimulationAPI => some 0
  | .TNGSnapshotAPI => some 1
  | .TNGSubhaloAPI => some 2

/-- The module-level `_levels` dict (lines 19–23). -/
def levelsDict : List (Int × String) :=
  [(0, "TNGSimulationAPI"), (1, "TNGSnapshotAPI"), (2, "TNGSubhaloAPI")]

/-- The dict `_subclass_dict = {k.__name__: k for k in TNGAPI.__subclasses__()}`. -/
def subclassDict : List (String × APIClass) :=
  [("TNGSimulationAPI", .TNGSimulationAPI),
   ("TNGSnapshotAPI", .TNGSnapshotAPI),
   ("TNGSubhaloAPI", .TNGSubhaloAPI)]

/-- Embedding of `TNGAPI.__new__(cls, **kwargs)` (lines 74–81):
if `len(kwargs) - 1 == cls._level` return an instance of `cls`, otherwise
return an instance of `_subclass_dict[_levels[len(kwargs) - 1]]`.  The
subtraction is Python `int` arithmetic, so `len(kwargs) = 0` indexes `_levels`
with `-1`; a count not in `_levels` raises `KeyError`. -/
def TNGAPI.new (cls : APIClass) (kwargsCount : Nat) : Except PyErr APIClass :=
  if APIClass.level cls = some ((kwargsCount : Int) - 1) then .ok cls
  else
    match assocFind levelsDict ((kwargsCount : Int) - 1) with
    | some cname =>
      match assocFind subclassDict cname with
      | some c => .ok c
      | none => .error .keyError
    | none => .error .keyError

/-! ## The cosmological unit system (`pyTNG/units/cosmological.py`) -/

/-- A dimension expression, as the vector of exponents of the base dimension
symbols the embedded code manipulates: `(length)`, `(mass)`, `(time)` and the
custom `(scale_factor)` symbol `a` appended to `unyt_dims.base_dimensions`
(line 13–14).  sympy dimension monomials are exactly such exponent vectors;
`unyt` allows rational exponents, hence `ℚ`. -/
structure Dims : Type where
  length : ℚ
  mass : ℚ
  time : ℚ
  a_exp : ℚ
deriving DecidableEq, Repr, Inhabited

/-- Pointwise quotient of dimension monomials (`d / e` on sympy symbols). -/
def Dims.div (d e : Dims) : Dims :=
  ⟨d.length - e.length, d.mass - e.mass, d.time - e.time, d.a_exp - e.a_exp⟩

/-- The dimension `unyt_dims.length`. -/
def unyt_length : Dims := ⟨1, 0, 0, 0⟩

/-- The dimension `unyt_dims.dimensionless`. -/
def unyt_dimensionless : Dims := ⟨0, 0, 0, 0⟩

/-- The custom scale-factor dimension `a = Symbol("(scale_factor)")` (line 13). -/
def a_dim : Dims := ⟨0, 0, 0, 1⟩

/-- Embedding of `cm_length = unyt_dims.length / a` (line 18): the comoving-length dimension. -/
def cm_length : Dims := Dims.div unyt_length a_dim

/-- Embedding of `_ud.subs(unyt_dims.length, cm_length)` (line 65): substituting
`length ↦ length / a` in a monomial `length^p · mass^q · time^r · a^t`
yields `length^p · mass^q · time^r · a^(t - p)`. -/
def Dims.subsLengthCm (d : Dims) : Dims :=
  ⟨d.length, d.mass, d.time, d.a_exp - d.length⟩

/-- The class attribute `CosmoEquivalence.type_name` (line 24). -/
def CosmoEquivalence.type_name : String := "cosmology"

/-- The pair `CosmoEquivalence._dims = (cm_length, unyt_dims.length)` (line 25). -/
def CosmoEquivalence.dimsPair : Dims × Dims := (cm_length, unyt_length)

/-- Embedding of `CosmoEquivalence._convert(self, x, new_dims, scale_factor=1)`
(lines 27–31): multiply by the scale factor when converting to the physical
(`length`) dimension, divide when converting to the comoving (`cm_length`)
dimension; any other target dimension falls through and returns `None`. -/
def CosmoEquivalence.convert (x : ℚ) (new_dims : Dims) (scale_factor : ℚ) : Option ℚ :=
  if new_dims = unyt_length then some (x * scale_factor)
  else if new_dims = cm_length then some (x / scale_factor)
  else none

/-- One entry of a `unyt.UnitRegistry` lookup table, in the positional order of
the `lut` tuples that line 64 unpacks as `_s, _ud, _bv, _tex, _bool`:
`(base_value, dimensions, offset, tex_repr, prefixable)`. -/
structure UnitEntry : Type where
  base_value : ℚ
  dimensions : Dims
  offset : ℚ
  tex_repr : String
  prefixable : Bool
deriving DecidableEq, Repr, Inhabited

/-- A `unyt.UnitRegistry` lookup table: unit name to entry, insertion-ordered. -/
abbrev Registry : Type := List (String × UnitEntry)

/-- Embedding of `registry.add(symbol, ...)`: sets `lut[symbol]` (external `unyt` boundary,
modelled as dict assignment). -/
def Registry.add (r : Registry) (n : String) (e : UnitEntry) : Registry :=
  assocSet r n e

/-- Embedding of `symbol.replace("_", r"\ ")`, used by `unyt` when generating a default
LaTeX representation for a new unit. -/
def texEscapeUnderscores (s : String) : String :=
  ⟨s.data.foldr (fun c acc => if c = '_' then '\\' :: ' ' :: acc else c :: acc) []⟩

/-- The default `tex_repr` `unyt.UnitRegistry.add` generates when none is
passed: `r"\rm{" + symbol.replace("_", r"\ ") + "}"` (external boundary). -/
def texDefault (symbol : String) : String :=
  "\\rm\x7b" ++ texEscapeUnderscores symbol ++ "\x7d"

/-- The display-form splice of lines 67–73: if `_tex` is non-empty and ends in
`"}"`, replace that last character by `"cm}"`; a non-empty `_tex` not ending in
`"}"` gets `"_{\rm{cm}}"` appended; an empty `_tex` stays empty.
(`Char.ofNat 125` is the right-brace character.) -/
def deriveTex (tex : String) : String :=
  if tex.data.length ≠ 0 then
    if tex.data.getLast? = some (Char.ofNat 125) then
      (⟨tex.data.dropLast⟩ : String) ++ "cm\x7d"
    else tex ++ "_\x7b\\rm\x7bcm\x7d\x7d"
  else ""

/-- The registry entry line 75 adds for `unit_name + "cm"`:
`add(unit_name+"cm", _s, _new_ud, _new_tex, float(_bv), _bool)`, i.e. the same
base value, the dimensions with `length` substituted by `cm_length`, the
spliced tex form, the same offset and the same prefixable flag. -/
def deriveEntry (e : UnitEntry) : UnitEntry :=
  ⟨e.base_value, Dims.subsLengthCm e.dimensions, e.offset,
   deriveTex e.tex_repr, e.prefixable⟩

/-- One iteration of the comoving-unit loop (lines 63–75): read the current
`lut[unit_name]` and add the `unit_name + "cm"` unit derived from it.  (The
lookup cannot fail: the loop only iterates names that were present when the
snapshot was taken and the registry never loses a key; the `none` branch is
dead.) -/
def cosmoUnitsStep (acc : Registry) (unit_name : String) : Registry :=
  match assocFind acc unit_name with
  | some e => Registry.add acc (unit_name ++ "cm") (deriveEntry e)
  | none => acc

/-- The registry transformation performed by `CosmoUnits.__init__`
(lines 52–78) on the registry object it binds:
`add("scale_factor", 1.0, a)`; snapshot `_lut_names = list(lut.keys())`;
for each snapshotted name add the `"cm"`-suffixed comoving unit; finally
`add("h", base_value=littleh, dimensions=dimensionless, tex_repr="h",
offset=0.0, prefixable=False)`. -/
def CosmoUnits.initRegistry (reg : Registry) (littleh : ℚ) : Registry :=
  let r1 := Registry.add reg "scale_factor" ⟨1, a_dim, 0, texDefault "scale_factor", false⟩
  let lut_names := r1.map Prod.fst
  let r2 := lut_names.foldl cosmoUnitsStep r1
  Registry.add r2 "h" ⟨littleh, unyt_dimensionless, 0, "h", false⟩

/-- The unit names for which `_produce_unit_attributes` (lines 83–86) creates
instance attributes: every registry key except the `"%cm"` sentinel
(`_skipped_symbols`), which is skipped to avoid an unparsable unit expression. -/
def CosmoUnits.attributeNames (reg : Registry) : List String :=
  (reg.map Prod.fst).filter fun unit_key => unit_key ≠ "%cm"

/-- References to registry objects.  The module `pyTNG.units.cosmological`
only ever manipulates one registry object, the imported module-global
`unyt.unit_registry.default_unit_registry`; `CosmoUnits.__init__` rebinds it
(`self.registry = default_unit_registry`, line 52) and never copies it. -/
inductive RegRef : Type where
  | defaultRegistry : RegRef
deriving DecidableEq, Repr, Inhabited

/-- The process-wide mutable state reachable through registry references. -/
structure PyHeap : Type where
  default_unit_registry : Registry
deriving DecidableEq, Repr, Inhabited

/-- Dereference a registry reference in the current heap. -/
def PyHeap.deref (h : PyHeap) : RegRef → Registry
  | .defaultRegistry => h.default_unit_registry

/-- The fields of a constructed `CosmoUnits` object: the bound registry
*reference* and the stored scale factor and little-h values. -/
structure CosmoUnitsObj : Type where
  registry : RegRef
  scale_factor : ℚ
  littleh : ℚ
deriving DecidableEq, Repr, Inhabited

/-- Embedding of `CosmoUnits.__init__(self, scale_factor, littleh)`
(lines 42–81): bind the shared `default_unit_registry` object, mutate it via
`CosmoUnits.initRegistry`, and store the scale factor and little-h. -/
def CosmoUnits.construct (heap : PyHeap) (scale_factor littleh : ℚ) :
    CosmoUnitsObj × PyHeap :=
  let reg1 := CosmoUnits.initRegistry heap.default_unit_registry littleh
  (⟨RegRef.defaultRegistry, scale_factor, littleh⟩, ⟨reg1⟩)

/-! ## The concrete nodes (`TNGSimulationAPI`, `TNGSnapshotAPI`) -/

/-- An external astropy cosmology object, at its boundary: the
`scale_factor(z)` method and the `h` attribute (`available_cosmologies` maps
names to such objects). -/
structure Cosmo : Type where
  scale_factor : JVal → ℚ
  h : ℚ

instance : Inhabited Cosmo := ⟨⟨fun _ => 0, 0⟩⟩

/-- The fields a successfully constructed `TNGSimulationAPI` would carry. -/
structure SimState : Type where
  core : NodeState
  name : String
  cosmology : Cosmo
  meta : List (String × String)
  snapshots : Option Payload
  has_called_snapshots : Bool

/-- Embedding of `TNGSimulationAPI.__init__(self, simulation=None)`
(lines 237–259).  The statement order of the source is kept: `super().__init__()`
zeroes the node state, then line 250 reads `self.attributes["cosmology"]`
*before* line 253 assigns `self._base_api_url` — so the lazy fetch machinery
runs with `api_url = None` and `requests.get(None)` raises `MissingSchema`
before any network traffic.  The remaining assignments (metadata, URL, and the
reset `self._attr = None; self._has_called = False`) are embedded for the
unreachable success path. -/
def TNGSimulationAPI.init (backend : Backend) (cosmologies : List (String × Cosmo))
    (root_api_url : String) (simulation : String) (heap : PyHeap) :
    Except PyErr SimState × PyHeap × List HttpCall :=
  let s0 := TNGAPI.initState
  let a := TNGAPI.attributes backend s0
  match a.result with
  | .error e => (.error (.fetch e), heap, a.trace)
  | .ok attrOpt =>
    match attrOpt with
    | some (.json j) =>
      match assocFind j "cosmology" with
      | some (.jstr cname) =>
        match assocFind cosmologies cname with
        | some cosmo =>
          let core : NodeState :=
            ⟨some (root_api_url ++ "/" ++ simulation ++ "/"), none, false⟩
          (.ok ⟨core, simulation, cosmo, [("simulation", simulation)], none, false⟩,
           heap, a.trace)
        | none => (.error .keyError, heap, a.trace)
      | some _ => (.error .keyError, heap, a.trace)
      | none => (.error .keyError, heap, a.trace)
    | _ => (.error .typeError, heap, a.trace)

/-- The mapping `self._meta` of a snapshot node: the eagerly fetched parent-simulation
payload and the snapshot number. -/
structure SnapMeta : Type where
  simulation : Payload
  snapshot : Nat
deriving DecidableEq, Repr, Inhabited

/-- The fields of a constructed `TNGSnapshotAPI`. -/
structure SnapState : Type where
  core : NodeState
  name : Nat
  simulation : String
  snapshot : Nat
  meta : SnapMeta
  cosmology : Cosmo
  z : JVal
  scale_factor : ℚ
  units : CosmoUnitsObj

instance : Inhabited SnapState :=
  ⟨⟨default, 0, "", 0, default, default, default, 0, default⟩⟩

/-- Embedding of `TNGSnapshotAPI.__init__(self, simulation=None, snapshot=None)`
(lines 289–324), statement by statement:

* `super().__init__()` zeroes the node state;
* `self._meta = {"simulation": _api_fetch(root + f"/{simulation}/")[1],
  "snapshot": snapshot}` — one eager remote call;
* `self._base_api_url = root + f"/{simulation}/" + f"snapshots/{name}/"`;
* `self.cosmology = available_cosmologies[self.meta["simulation"]["cosmology"]]`;
* `self.z = self.redshift` — `redshift` is not defined on the class, so the
  read goes through `__getattr__`, which triggers the lazy `attributes` fetch
  and sets `_has_called = True`;
* `self.scale_factor = self.cosmology.scale_factor(self.z)`;
* `self.units = CosmoUnits(self.scale_factor, self.cosmology.h)` — mutates the
  shared default unit registry;
* finally `self._has_called = False` — the flag is reset even though the
  attributes were fetched and cached two statements earlier. -/
def TNGSnapshotAPI.init (backend : Backend) (cosmologies : List (String × Cosmo))
    (root_api_url : String) (simulation : String) (snapshot : Nat) (heap : PyHeap) :
    Except PyErr SnapState × PyHeap × List HttpCall :=
  let s0 := TNGAPI.initState
  let simUrl := root_api_url ++ "/" ++ simulation ++ "/"
  let f := api_fetch backend (some simUrl) none [] FS.empty
  match f.result with
  | .error e => (.error (.fetch e), heap, f.trace)
  | .ok (_status, simPayload) =>
    let meta : SnapMeta := ⟨simPayload, snapshot⟩
    let base := root_api_url ++ "/" ++ simulation ++ "/" ++ "snapshots/" ++
      toString snapshot ++ "/"
    let s1 : NodeState := ⟨some base, s0.attr, s0.has_called⟩
    match meta.simulation with
    | .json simJ =>
      match assocFind simJ "cosmology" with
      | some (.jstr cname) =>
        match assocFind cosmologies cname with
        | some cosmo =>
          let g := TNGAPI.getattr backend "redshift" s1
          match g.result with
          | .error e => (.error e, heap, f.trace ++ g.trace)
          | .ok gv =>
            match gv with
            | .attrVal z =>
              let sf := cosmo.scale_factor z
              let (units, heap1) := CosmoUnits.construct heap sf cosmo.h
              let s2 : NodeState := ⟨g.state.base_api_url, g.state.attr, false⟩
              (.ok ⟨s2, snapshot, simulation, snapshot, meta, cosmo, z, sf, units⟩,
               heap1, f.trace ++ g.trace)
            | .classAttr =>
              -- dead branch: "redshift" is not an attribute of `object`/`ABC`
              (.error .typeError, heap, f.trace ++ g.trace)
        | none => (.error .keyError, heap, f.trace)
      | some _ => (.error .keyError, heap, f.trace)
      | none => (.error .keyError, heap, f.trace)
    | _ => (.error .typeError, heap, f.trace)

/-! ## Concrete fixtures used by the closed theorems -/

/-- Projection `Except.isOk` as a plain Boolean, used to state that a constructor run
succeeded. -/
def exceptIsOk {ε α : Type} : Except ε α → Bool
  | .ok _ => true
  | .error _ => false

deriving instance DecidableEq for Except

/-- A small base unit registry: a length unit and a mass unit (a stand-in for
`unyt`'s `default_unit_registry`, which lives outside this repository). -/
def sampleBaseRegistry : Registry :=
  [("kpc", ⟨1, unyt_length, 0, "\\rm\x7bkpc\x7d", true⟩),
   ("g", ⟨1, ⟨0, 1, 0, 0⟩, 0, "\\rm\x7bg\x7d", true⟩)]

/-- A resolved `root_api_url` (spec §6: the core only consumes this string). -/
def sampleRoot : String := "api"

/-- The simulation endpoint URL the fixtures use. -/
def sampleSimUrl : String := "api/Illustris-3/"

/-- The snapshot endpoint URL the fixtures use. -/
def sampleSnapUrl : String := "api/Illustris-3/snapshots/75/"

/-- The JSON metadata the fake simulation endpoint serves. -/
def sampleSimJson : JObj := [("cosmology", .jstr "Planck2013")]

/-- The JSON metadata the fake snapshot endpoint serves. -/
def sampleSnapJson : JObj := [("redshift", .jnum 0), ("num_gas", .jnum 100)]

/-- A successful JSON response. -/
def jsonResponse (j : JObj) : HResponse :=
  ⟨200, [("content-type", "application/json")], j, []⟩

/-- A fake backend serving fixed JSON for the simulation and snapshot
endpoints. -/
def sampleBackend : Backend := fun u _params =>
  if u = sampleSimUrl then jsonResponse sampleSimJson
  else if u = sampleSnapUrl then jsonResponse sampleSnapJson
  else jsonResponse []

/-- A fake astropy cosmology: scale factor 1 at every redshift, `h = 0.7`. -/
def sampleCosmo : Cosmo := ⟨fun _ => 1, 7/10⟩

/-- A fake `available_cosmologies` mapping. -/
def sampleCosmologies : List (String × Cosmo) := [("Planck2013", sampleCosmo)]

/-- The run of `TNGSnapshotAPI(simulation="Illustris-3", snapshot=75)` against
the fake backend, starting from the sample unit registry. -/
def sampleSnapCtor : Except PyErr SnapState × PyHeap × List HttpCall :=
  TNGSnapshotAPI.init sampleBackend sampleCosmologies sampleRoot "Illustris-3" 75
    ⟨sampleBaseRegistry⟩

/-- The snapshot node the sample constructor run produces. -/
def sampleSnapState : SnapState :=
  match sampleSnapCtor.1 with
  | .ok s => s
  | .error _ => default

/-- The first post-construction read of `attributes` on the sample node. -/
def sampleRead1 : AttrOut := TNGAPI.attributes sampleBackend sampleSnapState.core

/-- The second post-construction read of `attributes` on the sample node. -/
def sampleRead2 : AttrOut := TNGAPI.attributes sampleBackend sampleRead1.state

/-- A backend whose every response is a success carrying an empty JSON object. -/
def emptyJsonBackend : Backend := fun _ _ => jsonResponse []

/-- A backend answering HTTP 500 on every URL. -/
def errorBackend : Backend := fun _ _ =>
  ⟨500, [("content-type", "application/json")], [], []⟩

/-- A node pointed at an endpoint, not yet fetched. -/
def c5Node : NodeState := ⟨some "api/sim/", none, false⟩

/-- The first (successful) fetch of `c5Node` against the empty-JSON backend. -/
def c5Out : CallOut := TNGAPI.call emptyJsonBackend c5Node none [] FS.empty

/-- A binary response with a `content-disposition` filename header. -/
def c8Response : HResponse :=
  ⟨200,
   [("content-type", "application/octet-stream"),
    ("content-disposition", "attachment; filename=out.bin")],
   [], [1, 2, 3]⟩

/-- A backend serving `c8Response` on every URL. -/
def c8Backend : Backend := fun _ _ => c8Response

/-- A fetch of the binary endpoint with `directory="downloads"` on an empty
filesystem. -/
def c8Out : FetchOut := api_fetch c8Backend (some "api/cutout") (some "downloads") [] FS.empty

/-- An unfetched node pointed at the sample simulation endpoint. -/
def c10Node : NodeState := ⟨some sampleSimUrl, none, false⟩

/-! ## Association-list lemmas -/

theorem assocFind_assocSet_self {α β : Type} [DecidableEq α] (l : List (α × β))
    (k : α) (v : β) : assocFind (assocSet l k v) k = some v := by
  induction l with
  | nil => simp [assocSet, assocFind]
  | cons p l ih =>
    obtain ⟨a, b⟩ := p
    by_cases h : a = k
    · simp [assocSet, assocFind, h]
    · simp [assocSet, assocFind, h, ih]

theorem assocFind_assocSet_ne {α β : Type} [DecidableEq α] (l : List (α × β))
    (k k' : α) (v : β) (h : k' ≠ k) :
    assocFind (assocSet l k v) k' = assocFind l k' := by
  induction l with
  | nil => simp [assocSet, assocFind, Ne.symm h]
  | cons p l ih =>
    obtain ⟨a, b⟩ := p
    by_cases ha : a = k
    · subst ha
      simp [assocSet, assocFind, Ne.symm h]
    · by_cases ha' : a = k'
      · subst ha'
        simp [assocSet, assocFind, ha]
      · simp [assocSet, assocFind, ha, ha', ih]

theorem assocFind_eq_none_iff {α β : Type} [DecidableEq α] (l : List (α × β))
    (k : α) : assocFind l k = none ↔ k ∉ l.map Prod.fst := by
  induction l with
  | nil => simp [assocFind]
  | cons p l ih =>
    obtain ⟨a, b⟩ := p
    by_cases h : a = k
    · subst h; simp [assocFind]
    · simp [assocFind, h, ih, Ne.symm h]

theorem assocFind_isSome_iff {α β : Type} [DecidableEq α] (l : List (α × β))
    (k : α) : (assocFind l k).isSome ↔ k ∈ l.map Prod.fst := by
  rw [Option.isSome_iff_ne_none, ne_eq, assocFind_eq_none_iff, not_not]

theorem mem_keys_of_assocFind_some {α β : Type} [DecidableEq α]
    {l : List (α × β)} {k : α} {v : β} (h : assocFind l k = some v) :
    k ∈ l.map Prod.fst := by
  have : (assocFind l k).isSome := by rw [h]; rfl
  exact (assocFind_isSome_iff l k).mp this

theorem mem_keys_assocSet {α β : Type} [DecidableEq α] (l : List (α × β))
    (k k' : α) (v : β) :
    k' ∈ (assocSet l k v).map Prod.fst ↔ k' ∈ l.map Prod.fst ∨ k' = k := by
  induction l with
  | nil => simp [assocSet]
  | cons p l ih =>
    obtain ⟨a, b⟩ := p
    by_cases h : a = k
    · subst h; simp [assocSet]; tauto
    · simp [assocSet, h, ih]; tauto

theorem assocSet_eq_append {α β : Type} [DecidableEq α] {l : List (α × β)}
    {k : α} (v : β) (h : assocFind l k = none) :
    assocSet l k v = l ++ [(k, v)] := by
  induction l with
  | nil => rfl
  | cons p l ih =>
    obtain ⟨a, b⟩ := p
    by_cases ha : a = k
    · rw [assocFind, if_pos ha] at h; exact absurd h (by simp)
    · rw [assocFind, if_neg ha] at h
      simp [assocSet, ha, ih h]

/-! ## Lemmas about the comoving-unit derivation loop -/

theorem append_cm_inj {x y : String} (h : x ++ "cm" = y ++ "cm") : x = y := by
  have hd : x.data ++ "cm".data = y.data ++ "cm".data := by
    have h2 := congrArg String.data h
    rwa [String.data_append, String.data_append] at h2
  exact String.ext (List.append_cancel_right hd)

theorem cosmoUnitsStep_find_ne (acc : Registry) (n m : String)
    (h : m ≠ n ++ "cm") :
    assocFind (cosmoUnitsStep acc n) m = assocFind acc m := by
  unfold cosmoUnitsStep
  cases hf : assocFind acc n with
  | none => rfl
  | some e => exact assocFind_assocSet_ne _ _ _ _ h

theorem cosmoUnitsStep_find_self (acc : Registry) (n : String) (e : UnitEntry)
    (hf : assocFind acc n = some e) :
    assocFind (cosmoUnitsStep acc n) (n ++ "cm") = some (deriveEntry e) := by
  unfold cosmoUnitsStep
  rw [hf]
  exact assocFind_assocSet_self _ _ _

theorem foldl_cosmoUnitsStep_find_ne (names : List String) (acc : Registry)
    (m : String) (h : ∀ n ∈ names, m ≠ n ++ "cm") :
    assocFind (names.foldl cosmoUnitsStep acc) m = assocFind acc m := by
  induction names generalizing acc with
  | nil => rfl
  | cons a tl ih =>
    rw [List.foldl_cons,
      ih (cosmoUnitsStep acc a) (fun n hn => h n (List.mem_cons_of_mem _ hn)),
      cosmoUnitsStep_find_ne acc a m (h a (List.mem_cons_self _ _))]

theorem mem_keys_cosmoUnitsStep (acc : Registry) (n : String) {k : String}
    (h : k ∈ acc.map Prod.fst) :
    k ∈ (cosmoUnitsStep acc n).map Prod.fst := by
  unfold cosmoUnitsStep
  cases hf : assocFind acc n with
  | none => exact h
  | some e => exact (mem_keys_assocSet _ _ _ _).mpr (Or.inl h)

theorem mem_keys_foldl_cosmoUnitsStep (names : List String) (acc : Registry)
    {k : String} (h : k ∈ acc.map Prod.fst) :
    k ∈ (names.foldl cosmoUnitsStep acc).map Prod.fst := by
  induction names generalizing acc with
  | nil => exact h
  | cons a tl ih =>
    rw [List.foldl_cons]
    exact ih _ (mem_keys_cosmoUnitsStep acc a h)

theorem foldl_cosmoUnitsStep_adds_cm (names : List String) (acc : Registry)
    {n : String} (h1 : n ∈ names) (h2 : n ∈ acc.map Prod.fst) :
    (n ++ "cm") ∈ (names.foldl cosmoUnitsStep acc).map Prod.fst := by
  induction names generalizing acc with
  | nil => cases h1
  | cons a tl ih =>
    rw [List.foldl_cons]
    rcases List.mem_cons.mp h1 with rfl | hmem
    · have hs : (assocFind acc n).isSome := (assocFind_isSome_iff _ _).mpr h2
      obtain ⟨e, he⟩ := Option.isSome_iff_exists.mp hs
      have : (n ++ "cm") ∈ (cosmoUnitsStep acc n).map Prod.fst :=
        mem_keys_of_assocFind_some (cosmoUnitsStep_find_self acc n e he)
      exact mem_keys_foldl_cosmoUnitsStep tl _ this
    · exact ih _ hmem (mem_keys_cosmoUnitsStep acc a h2)

theorem foldl_cosmoUnitsStep_derives (names : List String) (acc : Registry)
    (m : String) (e : UnitEntry) (hnd : names.Nodup) (hm : m ∈ names)
    (hne : ∀ n ∈ names, m ≠ n ++ "cm") (hf : assocFind acc m = some e) :
    assocFind (names.foldl cosmoUnitsStep acc) (m ++ "cm") =
      some (deriveEntry e) := by
  induction names generalizing acc with
  | nil => cases hm
  | cons a tl ih =>
    rw [List.foldl_cons]
    rcases List.mem_cons.mp hm with rfl | hmem
    · have h1 : assocFind (cosmoUnitsStep acc m) (m ++ "cm") =
          some (deriveEntry e) := cosmoUnitsStep_find_self acc m e hf
      rw [foldl_cosmoUnitsStep_find_ne tl _ _ ?_]
      · exact h1
      · intro n hn hEq
        have := append_cm_inj hEq
        exact (List.nodup_cons.mp hnd).1 (this ▸ hn)
    · have hfa : assocFind (cosmoUnitsStep acc a) m = some e := by
        rw [cosmoUnitsStep_find_ne acc a m (hne a (List.mem_cons_self _ _))]
        exact hf
      exact ih _ (List.nodup_cons.mp hnd).2 hmem
        (fun n hn => hne n (List.mem_cons_of_mem _ hn)) hfa

theorem initRegistry_adds_cm (r : Registry) (lh : ℚ) {n : String}
    (h : n ∈ r.map Prod.fst) :
    (n ++ "cm") ∈ (CosmoUnits.initRegistry r lh).map Prod.fst := by
  unfold CosmoUnits.initRegistry
  have h1 : n ∈ (Registry.add r "scale_factor"
      ⟨1, a_dim, 0, texDefault "scale_factor", false⟩).map Prod.fst :=
    (mem_keys_assocSet _ _ _ _).mpr (Or.inl h)
  have h2 := foldl_cosmoUnitsStep_adds_cm
    ((Registry.add r "scale_factor"
      ⟨1, a_dim, 0, texDefault "scale_factor", false⟩).map Prod.fst) _ h1 h1
  exact (mem_keys_assocSet _ _ _ _).mpr (Or.inl h2)

/-! ## `_api_fetch` characterizations -/

theorem api_fetch_httpError (backend : Backend) (u : String) (d : Option String)
    (kwargs : List (String × String)) (fs : FS)
    (hcode : 400 ≤ (backend u kwargs).status_code ∧
      (backend u kwargs).status_code < 600) :
    api_fetch backend (some u) d kwargs fs =
      ⟨.error (.httpError (backend u kwargs).status_code), fs, [(u, kwargs)]⟩ := by
  simp only [api_fetch]
  rw [if_pos hcode]

theorem api_fetch_json (backend : Backend) (u : String) (d : Option String)
    (kwargs : List (String × String)) (fs : FS)
    (hcode : ¬(400 ≤ (backend u kwargs).status_code ∧
      (backend u kwargs).status_code < 600))
    (hct : assocFind (backend u kwargs).headers "content-type" =
      some "application/json") :
    api_fetch backend (some u) d kwargs fs =
      ⟨.ok (0, .json (backend u kwargs).jsonBody), fs, [(u, kwargs)]⟩ := by
  simp only [api_fetch]
  rw [if_neg hcode, hct]
  simp

/-! ## Claim theorems -/

/-- C6: for every numeric value `x` and every positive scale factor `s`, the
comoving→physical conversion of `CosmoEquivalence._convert` returns `x * s`,
the physical→comoving conversion returns `x / s`, and the round trip
comoving→physical→comoving at the same `s` returns the original value exactly. -/
theorem c6_equivalence_convert (x s : ℚ) (hs : 0 < s) :
    CosmoEquivalence.convert x unyt_length s = some (x * s)
    ∧ CosmoEquivalence.convert x cm_length s = some (x / s)
    ∧ (CosmoEquivalence.convert x unyt_length s).bind
        (fun y => CosmoEquivalence.convert y cm_length s) = some x := by
  have hne : cm_length ≠ unyt_length := by
    simp only [cm_length, Dims.div, unyt_length, a_dim, ne_eq, Dims.mk.injEq, not_and]
    intro _ _ _
    norm_num
  refine ⟨by simp [CosmoEquivalence.convert], by simp [CosmoEquivalence.convert, hne], ?_⟩
  simp [CosmoEquivalence.convert, hne]
  exact mul_div_cancel_right₀ x hs.ne'

/-- Witness for C6 at `x = 3`, `s = 2`. -/
theorem c6_convert_witness :
    (0 : ℚ) < 2 ∧
      (CosmoEquivalence.convert 3 unyt_length 2 = some (3 * 2)
      ∧ CosmoEquivalence.convert 3 cm_length 2 = some (3 / 2)
      ∧ (CosmoEquivalence.convert 3 unyt_length 2).bind
          (fun y => CosmoEquivalence.convert y cm_length 2) = some 3) :=
  ⟨by norm_num, c6_equivalence_convert 3 2 (by norm_num)⟩

/-- C2: calling the factory entry point `TNGAPI.__new__` on the abstract base
with 1, 2 or 3 identifying keyword arguments yields the `TNGSimulationAPI`,
`TNGSnapshotAPI` or `TNGSubhaloAPI` concrete class respectively; any other
count fails with the `KeyError` raised by the `_levels` lookup (the failure
the spec's taxonomy names `InvalidIdentityError`). -/
theorem c2_factory_level_selection (n : Nat) :
    (TNGAPI.new .TNGAPI n = .ok .TNGSimulationAPI ↔ n = 1)
    ∧ (TNGAPI.new .TNGAPI n = .ok .TNGSnapshotAPI ↔ n = 2)
    ∧ (TNGAPI.new .TNGAPI n = .ok .TNGSubhaloAPI ↔ n = 3)
    ∧ (n ≠ 1 → n ≠ 2 → n ≠ 3 → TNGAPI.new .TNGAPI n = .error .keyError) := by
  match n with
  | 0 => exact ⟨by decide, by decide, by decide, fun _ _ _ => by decide⟩
  | 1 => exact ⟨by decide, by decide, by decide, fun h _ _ => absurd rfl h⟩
  | 2 => exact ⟨by decide, by decide, by decide, fun _ h _ => absurd rfl h⟩
  | 3 => exact ⟨by decide, by decide, by decide, fun _ _ h => absurd rfl h⟩
  | (m + 4) =>
    have hnew : TNGAPI.new .TNGAPI (m + 4) = .error .keyError := by
      unfold TNGAPI.new
      rw [if_neg (by simp [APIClass.level])]
      simp only [levelsDict, assocFind]
      split_ifs with hc1 hc2 hc3
      · exact absurd hc1 (by push_cast; omega)
      · exact absurd hc2 (by push_cast; omega)
      · exact absurd hc3 (by push_cast; omega)
      · rfl
    exact ⟨iff_of_false (by simp [hnew]) (by omega),
      iff_of_false (by simp [hnew]) (by omega),
      iff_of_false (by simp [hnew]) (by omega),
      fun _ _ _ => hnew⟩

/-- Witness for C2: five arguments fail with `KeyError`, two arguments yield
the snapshot class. -/
theorem c2_factory_witness :
    TNGAPI.new .TNGAPI 5 = .error .keyError
    ∧ TNGAPI.new .TNGAPI 2 = .ok .TNGSnapshotAPI :=
  ⟨(c2_factory_level_selection 5).2.2.2 (by decide) (by decide) (by decide),
   (c2_factory_level_selection 2).2.1.mpr rfl⟩

/-- C4 (code bug): `TNGSimulationAPI.__init__` reads `self.attributes` at line
250, *before* line 253 assigns `self._base_api_url`, so for every backend the
constructor eagerly invokes the fetch machinery with `api_url = None`:
`requests.get(None)` raises (`MissingSchema`) before any network traffic, and
construction never completes.  The claim — that a Simulation node fixes its
endpoint URL at construction, performs no remote call, and fetches attributes
lazily on first access — is what the class's own trailing assignments
(`self._attr = None; self._has_called = False`) were written for, but the
statement order defeats it. -/
theorem c4_simulation_ctor_eager_fetch (backend : Backend)
    (cosmologies : List (String × Cosmo)) (root_api_url simulation : String)
    (heap : PyHeap) :
    (TNGSimulationAPI.init backend cosmologies root_api_url simulation heap).1 =
      .error (.fetch .missingUrl)
    ∧ (TNGSimulationAPI.init backend cosmologies root_api_url simulation heap).2.2 = [] :=
  ⟨rfl, rfl⟩

/-- C5 (amended): a fetch that fails with a non-success HTTP status leaves the
node state and the filesystem unchanged and propagates the error synchronously;
a successful JSON fetch caches exactly the backend's JSON response — which is
non-empty only when the response is — and sets `fetchState` to `Fetched`. -/
theorem c5_fetch_failure_leaves_state (backend : Backend) (u : String)
    (s : NodeState) (d : Option String) (kwargs : List (String × String)) (fs : FS)
    (hurl : s.base_api_url = some u) :
    ((400 ≤ (backend u kwargs).status_code ∧ (backend u kwargs).status_code < 600) →
      (TNGAPI.call backend s d kwargs fs).result =
        .error (.httpError (backend u kwargs).status_code)
      ∧ (TNGAPI.call backend s d kwargs fs).state = s
      ∧ (TNGAPI.call backend s d kwargs fs).fs = fs)
    ∧ (¬(400 ≤ (backend u kwargs).status_code ∧ (backend u kwargs).status_code < 600) →
        assocFind (backend u kwargs).headers "content-type" =
          some "application/json" →
      (TNGAPI.call backend s d kwargs fs).result =
        .ok (.json (backend u kwargs).jsonBody)
      ∧ (TNGAPI.call backend s d kwargs fs).state =
          ⟨s.base_api_url, some (.json (backend u kwargs).jsonBody), true⟩
      ∧ (TNGAPI.call backend s d kwargs fs).fs = fs) := by
  constructor
  · intro hcode
    have hf := api_fetch_httpError backend u d kwargs fs hcode
    simp only [TNGAPI.call, TNGAPI.api_url, hurl, hf]
    exact ⟨trivial, trivial, trivial⟩
  · intro hcode hct
    have hf := api_fetch_json backend u d kwargs fs hcode hct
    simp only [TNGAPI.call, TNGAPI.api_url, hurl, hf]
    exact ⟨trivial, trivial, trivial⟩

/-- Witness for C5: an HTTP-500 backend leaves the node untouched; the
empty-JSON backend succeeds. -/
theorem c5_fetch_failure_witness :
    (TNGAPI.call errorBackend c5Node none [] FS.empty).result =
      .error (.httpError 500)
    ∧ (TNGAPI.call errorBackend c5Node none [] FS.empty).state = c5Node
    ∧ (TNGAPI.call emptyJsonBackend c5Node none [] FS.empty).result =
        .ok (.json []) :=
  ⟨((c5_fetch_failure_leaves_state errorBackend "api/sim/" c5Node none [] FS.empty
      rfl).1 (by decide)).1,
   ((c5_fetch_failure_leaves_state errorBackend "api/sim/" c5Node none [] FS.empty
      rfl).1 (by decide)).2.1,
   ((c5_fetch_failure_leaves_state emptyJsonBackend "api/sim/" c5Node none [] FS.empty
      rfl).2 (by decide) rfl).1⟩

/-- C5 counterexample to the claim as stated: a successful first fetch of a
backend answering HTTP 200 with the empty JSON object `{}` caches an *empty*
attributes mapping — `attributes` equals the backend's JSON response but is not
non-empty, refuting the "attributes is non-empty after the first successful
fetch" conjunct. -/
theorem c5_empty_response_counterexample :
    c5Out.result = .ok (.json []) ∧ c5Out.state.has_called = true
    ∧ c5Out.state.attr = some (.json []) :=
  ⟨rfl, rfl, rfl⟩

/-- C8 (code bug): fetching a response that carries
`content-disposition: attachment; filename=out.bin` with `directory =
"downloads"` does create the directory and does return the header filename
with the full response bytes written — but the file is written at the
cwd-relative path `"out.bin"` (the code calls `open(filename, "wb")`), not at
`"downloads/out.bin"` inside the requested directory, contradicting the claim
and the `call` docstring ("The directory to save any downloadable objects from
the call to"). -/
theorem c8_download_written_outside_directory :
    c8Out.result = .ok (2, .file "out.bin")
    ∧ c8Out.fs.dirs = ["downloads"]
    ∧ c8Out.fs.files = [("out.bin", [1, 2, 3])]
    ∧ "downloads/out.bin" ∉ c8Out.fs.files.map Prod.fst :=
  ⟨rfl, rfl, rfl, by decide⟩

/-- C3 (code bug): running `TNGSnapshotAPI(simulation="Illustris-3",
snapshot=75)` against a JSON backend succeeds; during construction the node's
own endpoint was fetched (second trace entry) and its payload cached in
`_attr` — the only statement that writes `_attr` also sets
`_has_called = True` — yet the constructor ends with `_has_called = False`
(line 324): `fetchState` reverted from `Fetched` to `NotFetched`, refuting
monotonicity. -/
theorem c3_fetchState_reverts_in_snapshot_ctor :
    exceptIsOk sampleSnapCtor.1 = true
    ∧ sampleSnapCtor.2.2 = [(sampleSimUrl, []), (sampleSnapUrl, [])]
    ∧ sampleSnapState.core.attr = some (.json sampleSnapJson)
    ∧ sampleSnapState.core.has_called = false := by
  refine ⟨by decide, by decide, by decide, by decide⟩

/-- C1 (code bug): on the very same snapshot instance the attributes endpoint
is fetched **twice** — once inside the constructor (via `self.redshift`) and
once more on the first post-construction read, because the constructor resets
`_has_called` after its internal read.  The accessor itself behaves as claimed
for reads: the two consecutive post-construction reads return the same cached
mapping with exactly one network call between them (the first read fetches,
the second is served from the cache) — but "fetched at most once per node
instance" fails. -/
theorem c1_snapshot_attributes_fetched_twice :
    ((sampleSnapCtor.2.2 ++ sampleRead1.trace ++ sampleRead2.trace).filter
        (fun c => c.1 = sampleSnapUrl)).length = 2
    ∧ sampleRead1.result = .ok (some (.json sampleSnapJson))
    ∧ sampleRead2.result = .ok (some (.json sampleSnapJson))
    ∧ sampleRead1.trace = [(sampleSnapUrl, [])]
    ∧ sampleRead2.trace = []
    ∧ sampleRead1.state.has_called = true := by
  refine ⟨by decide, by decide, by decide, by decide, by decide, by decide⟩

/-- C10: reading any attribute name that is not found on the superclass chain
(and that reached `__getattr__` because the node's class does not define it)
triggers the lazy attributes fetch — one network call when `fetchState` is
`NotFetched`, after which the fetch is cached and `fetchState` is `Fetched` —
and, if the name is absent from the fetched mapping, raises `AttributeError`;
if present, its value is returned. -/
theorem c10_getattr_fetch_then_attribute_error (backend : Backend)
    (item u : String) (s : NodeState) (j : JObj)
    (h1 : item ∉ object_dir)
    (h2 : s.has_called = false)
    (h3 : s.base_api_url = some u)
    (h4 : (backend u []).status_code = 200)
    (h5 : assocFind (backend u []).headers "content-type" =
      some "application/json")
    (h6 : (backend u []).jsonBody = j) :
    (TNGAPI.getattr backend item s).trace = [(u, [])]
    ∧ (TNGAPI.getattr backend item s).state.has_called = true
    ∧ (TNGAPI.getattr backend item s).state.attr = some (.json j)
    ∧ (assocFind j item = none →
        (TNGAPI.getattr backend item s).result = .error .attributeError)
    ∧ (∀ v, assocFind j item = some v →
        (TNGAPI.getattr backend item s).result = .ok (.attrVal v)) := by
  have hcode : ¬(400 ≤ (backend u []).status_code ∧
      (backend u []).status_code < 600) := by
    rw [h4]; omega
  have hfetch : api_fetch backend (some u) none [] FS.empty =
      ⟨.ok (0, .json j), FS.empty, [(u, [])]⟩ := by
    rw [api_fetch_json backend u none [] FS.empty hcode h5, h6]
  have hcall : TNGAPI.call backend s none [] FS.empty =
      ⟨.ok (.json j), ⟨some u, some (.json j), true⟩, FS.empty, [(u, [])]⟩ := by
    simp only [TNGAPI.call, TNGAPI.api_url, h3, hfetch]
  have hattr : TNGAPI.attributes backend s =
      ⟨.ok (some (.json j)), ⟨some u, some (.json j), true⟩, [(u, [])]⟩ := by
    simp [TNGAPI.attributes, h2, hcall]
  have hattr2 : TNGAPI.attributes backend ⟨some u, some (.json j), true⟩ =
      ⟨.ok (some (.json j)), ⟨some u, some (.json j), true⟩, []⟩ := by
    simp [TNGAPI.attributes]
  cases hji : assocFind j item with
  | none =>
    have hget : TNGAPI.getattr backend item s =
        ⟨.error .attributeError, ⟨some u, some (.json j), true⟩, [(u, [])]⟩ := by
      simp [TNGAPI.getattr, h1, hattr, hji]
    refine ⟨by rw [hget], by rw [hget], by rw [hget], fun _ => by rw [hget],
      fun v hv => ?_⟩
    exact Option.noConfusion hv
  | some v0 =>
    have hget : TNGAPI.getattr backend item s =
        ⟨.ok (.attrVal v0), ⟨some u, some (.json j), true⟩, [(u, [])]⟩ := by
      simp [TNGAPI.getattr, h1, hattr, hji, hattr2]
    refine ⟨by rw [hget], by rw [hget], by rw [hget], fun hc => ?_,
      fun v hv => ?_⟩
    · exact Option.noConfusion hc
    · injection hv with hv'
      subst hv'
      rw [hget]

/-- Witness for C10: reading the misspelled name `"missing"` on an unfetched
node performs one network fetch of the simulation endpoint and then fails with
`AttributeError`. -/
theorem c10_getattr_witness :
    (TNGAPI.getattr sampleBackend "missing" c10Node).trace = [(sampleSimUrl, [])]
    ∧ (TNGAPI.getattr sampleBackend "missing" c10Node).result =
        .error .attributeError :=
  ⟨(c10_getattr_fetch_then_attribute_error sampleBackend "missing" sampleSimUrl
      c10Node sampleSimJson (by decide) rfl rfl rfl rfl rfl).1,
   (c10_getattr_fetch_then_attribute_error sampleBackend "missing" sampleSimUrl
      c10Node sampleSimJson (by decide) rfl rfl rfl rfl rfl).2.2.2.1 rfl⟩

/-- C7: constructing a `CosmoUnits` from a base registry whose names do not
collide with the added ones (no unit named `"scale_factor"` or `"h"`, and no
name of the form `U + "cm"` for a would-be source `U`) yields a registry that
is a strict superset of the base — every base unit is still present with its
exact entry, and the extra dimensionless unit `"h"` with base value `littleh`
makes the inclusion strict — and that, for every length-dimensioned base unit
`U`, contains a unit named `U ++ "cm"` whose dimension is `U`'s dimension with
`length` substituted by the comoving length `length / a`.  (The sentinel
`"%cm"` of `_skipped_symbols` is only excluded from *attribute* production,
`CosmoUnits.attributeNames`; it is never a member of the base registry, so the
claim's exclusion clause is vacuous at the registry level.) -/
theorem c7_derived_registry_superset (base : Registry) (littleh : ℚ)
    (hnd : (base.map Prod.fst).Nodup)
    (hsf : assocFind base "scale_factor" = none)
    (hh : assocFind base "h" = none)
    (hcm : ∀ n ∈ base.map Prod.fst ++ ["scale_factor"],
      assocFind base (n ++ "cm") = none) :
    (∀ m e, assocFind base m = some e →
      assocFind (CosmoUnits.initRegistry base littleh) m = some e)
    ∧ assocFind (CosmoUnits.initRegistry base littleh) "h" =
        some ⟨littleh, unyt_dimensionless, 0, "h", false⟩
    ∧ (∀ m e, assocFind base m = some e → e.dimensions.length ≠ 0 →
        ∃ e', assocFind (CosmoUnits.initRegistry base littleh) (m ++ "cm") = some e'
          ∧ e'.dimensions = Dims.subsLengthCm e.dimensions) := by
  simp only [CosmoUnits.initRegistry]
  set sfE : UnitEntry := ⟨1, a_dim, 0, texDefault "scale_factor", false⟩ with hsfEdef
  set r1 : Registry := Registry.add base "scale_factor" sfE with hr1def
  set names : List String := r1.map Prod.fst with hnamesdef
  set r2 : Registry := names.foldl cosmoUnitsStep r1 with hr2def
  have hkeys : names = base.map Prod.fst ++ ["scale_factor"] := by
    rw [hnamesdef, hr1def]
    simp only [Registry.add]
    rw [assocSet_eq_append sfE hsf, List.map_append]
    rfl
  have hnotarget : ∀ {m : String} {e : UnitEntry}, assocFind base m = some e →
      ∀ n ∈ names, m ≠ n ++ "cm" := by
    intro m e hme n hn hcontra
    have hnone := hcm n (by rwa [hkeys] at hn)
    rw [hcontra] at hme
    exact Option.noConfusion (hme.symm.trans hnone)
  have hfind_r1 : ∀ {m : String} {e : UnitEntry}, assocFind base m = some e →
      assocFind r1 m = some e := by
    intro m e hme
    have hm_ne_sf : m ≠ "scale_factor" := by
      intro hc
      rw [hc, hsf] at hme
      exact Option.noConfusion hme
    rw [hr1def]
    simp only [Registry.add]
    rw [assocFind_assocSet_ne _ _ _ _ hm_ne_sf]
    exact hme
  have hfind_r2 : ∀ {m : String} {e : UnitEntry}, assocFind base m = some e →
      assocFind r2 m = some e := by
    intro m e hme
    rw [hr2def, foldl_cosmoUnitsStep_find_ne names r1 m (hnotarget hme)]
    exact hfind_r1 hme
  refine ⟨?_, ?_, ?_⟩
  · intro m e hme
    have hm_ne_h : m ≠ "h" := by
      intro hc
      rw [hc, hh] at hme
      exact Option.noConfusion hme
    simp only [Registry.add]
    rw [assocFind_assocSet_ne _ _ _ _ hm_ne_h]
    exact hfind_r2 hme
  · simp only [Registry.add]
    exact assocFind_assocSet_self _ _ _
  · intro m e hme _hlen
    refine ⟨deriveEntry e, ?_, rfl⟩
    have hm_mem : m ∈ names := by
      rw [hkeys]
      exact List.mem_append_left _ (mem_keys_of_assocFind_some hme)
    have hsf_notmem : "scale_factor" ∉ base.map Prod.fst :=
      (assocFind_eq_none_iff _ _).mp hsf
    have hnodup : names.Nodup := by
      rw [hkeys]
      refine List.nodup_append.mpr ⟨hnd, List.nodup_singleton _, ?_⟩
      intro x hx hx'
      rw [List.mem_singleton] at hx'
      subst hx'
      exact hsf_notmem hx
    have hderiv := foldl_cosmoUnitsStep_derives names r1 m e hnodup hm_mem
      (hnotarget hme) (hfind_r1 hme)
    have hne_h : (m ++ "cm") ≠ "h" := by
      intro hc
      have hlenc := congrArg String.length hc
      rw [String.length_append] at hlenc
      have hcm2 : "cm".length = 2 := rfl
      have hh1 : "h".length = 1 := rfl
      rw [hcm2, hh1] at hlenc
      omega
    simp only [Registry.add]
    rw [assocFind_assocSet_ne _ _ _ _ hne_h]
    rw [← hr2def] at hderiv
    exact hderiv

/-- Witness for C7: the derivation applied to the two-unit sample registry
keeps `"kpc"` intact, adds the dimensionless `"h"` with base value `7/10`, and
contains `"kpccm"` with the comoving-length dimension. -/
theorem c7_registry_witness :
    assocFind (CosmoUnits.initRegistry sampleBaseRegistry (7/10)) "kpc" =
      some ⟨1, unyt_length, 0, "\\rm\x7bkpc\x7d", true⟩
    ∧ assocFind (CosmoUnits.initRegistry sampleBaseRegistry (7/10)) "h" =
      some ⟨7/10, unyt_dimensionless, 0, "h", false⟩ :=
  ⟨(c7_derived_registry_superset sampleBaseRegistry (7/10) (by decide) rfl rfl
      (by decide)).1 "kpc" ⟨1, unyt_length, 0, "\\rm\x7bkpc\x7d", true⟩ rfl,
   (c7_derived_registry_superset sampleBaseRegistry (7/10) (by decide) rfl rfl
      (by decide)).2.1⟩

/-- C9: every `CosmoUnits` instance binds the process-wide shared
`default_unit_registry` object (`self.registry = default_unit_registry`), not
a private copy — two instances constructed one after the other hold the *same*
registry reference — so the second construction iterates the registry already
extended by the first and adds doubly suffixed `U ++ "cmcm"` units for every
unit `U` of the base registry; dereferencing the first instance's registry
after the second construction shows the mutation (on the sample registry,
`"kpccmcm"` is absent after one construction and present after two). -/
theorem c9_shared_registry_double_suffix :
    (∀ (heap : PyHeap) (s1 h1 s2 h2 : ℚ),
      ((CosmoUnits.construct heap s1 h1).1).registry =
        ((CosmoUnits.construct (CosmoUnits.construct heap s1 h1).2 s2 h2).1).registry
      ∧ ∀ n ∈ heap.default_unit_registry.map Prod.fst,
          (n ++ "cmcm") ∈
            (((CosmoUnits.construct (CosmoUnits.construct heap s1 h1).2 s2 h2).2).deref
              ((CosmoUnits.construct heap s1 h1).1).registry).map Prod.fst)
    ∧ "kpccmcm" ∉
        (((CosmoUnits.construct ⟨sampleBaseRegistry⟩ 1 (7/10)).2).deref
          ((CosmoUnits.construct ⟨sampleBaseRegistry⟩ 1 (7/10)).1).registry).map Prod.fst
    ∧ "kpccmcm" ∈
        (((CosmoUnits.construct (CosmoUnits.construct ⟨sampleBaseRegistry⟩ 1 (7/10)).2
            (1/2) (7/10)).2).deref
          ((CosmoUnits.construct ⟨sampleBaseRegistry⟩ 1 (7/10)).1).registry).map Prod.fst := by
  refine ⟨?_, by decide, by decide⟩
  intro heap s1 h1 s2 h2
  refine ⟨rfl, ?_⟩
  intro n hn
  have g1 : (n ++ "cm") ∈
      (CosmoUnits.initRegistry heap.default_unit_registry h1).map Prod.fst :=
    initRegistry_adds_cm _ _ hn
  have g2 : ((n ++ "cm") ++ "cm") ∈
      (CosmoUnits.initRegistry
        (CosmoUnits.initRegistry heap.default_unit_registry h1) h2).map Prod.fst :=
    initRegistry_adds_cm _ _ g1
  have hassoc : (n ++ "cm") ++ "cm" = n ++ "cmcm" := by
    rw [String.append_assoc]
    rfl
  rw [← hassoc]
  exact g2

/-- Witness for C9: the doubly suffixed comoving kiloparsec appears after the
second construction. -/
theorem c9_shared_witness :
    ("kpc" ++ "cmcm") ∈
      (((CosmoUnits.construct (CosmoUnits.construct ⟨sampleBaseRegistry⟩ 1 (7/10)).2
          (1/2) (4/5)).2).deref
        ((CosmoUnits.construct ⟨sampleBaseRegistry⟩ 1 (7/10)).1).registry).map Prod.fst :=
  ((c9_shared_registry_double_suffix.1 ⟨sampleBaseRegistry⟩ 1 (7/10) (1/2) (4/5)).2)
    "kpc" (by decide)

end PyTNG
